import Mathlib

/-!
Verification development for the hubfly-reverse-proxy configuration manager.

The Go sources are shallowly embedded: the nginx configuration renderer
(`internal/nginx/manager.go`, and the manager variant providing
`RebuildStreamConfig`), the provisioning worker (`internal/api/server.go`),
and the JSON record store (`internal/store/json_store.go`).  Configuration
documents are modelled as lists of directive lines (interstitial blank lines
and indentation of the Go text/template output are elided); the filesystem is
an association list from file name to file content; Go's string-keyed maps are
association lists with unique keys; external fallible operations (certbot,
`os.Rename`+reload inside `Apply`) are driven by a boolean environment.
Timestamps (`CreatedAt`/`UpdatedAt`) are elided: no property below mentions
them.
-/

/-- Association-list update with Go map-assignment semantics: replace the
first binding of the key, else append a new binding. -/
def setAssoc (m : List (String × α)) (k : String) (v : α) : List (String × α) :=
  match m with
  | [] => [(k, v)]
  | (k', v') :: rest => if k' = k then (k, v) :: rest else (k', v') :: setAssoc rest k v

/-- Association-list removal (for `os.Remove` / `os.Rename` source). -/
def delAssoc (m : List (String × α)) (k : String) : List (String × α) :=
  match m with
  | [] => []
  | (k', v') :: rest => if k' = k then rest else (k', v') :: delAssoc rest k

/-- `xs` occurs as a consecutive run inside `ys`. -/
def isSegmentOf (xs ys : List String) : Prop :=
  ∃ pre post, ys = pre ++ xs ++ post

/-- `models.Site` (internal/models/site.go), sans timestamps.
`proxySetHeaders` models the Go `map[string]string` as a key-value list. -/
structure Site where
  id : String
  domain : String
  upstreams : List String
  forceSSL : Bool
  ssl : Bool
  templates : List String
  extraConfig : String
  proxySetHeaders : List (String × String)
  status : String
  errorMessage : String
  certIssueStatus : String
deriving DecidableEq, Repr

/-- Insertion of a pair into a key-sorted list (Go text/template iterates a
string-keyed map in sorted key order). -/
def insertByKey (p : String × String) : List (String × String) → List (String × String)
  | [] => [p]
  | q :: rest => if p.1 ≤ q.1 then p :: q :: rest else q :: insertByKey p rest

/-- Sort a header list by key, as Go text/template's `range` over a map does. -/
def sortHeaders (hs : List (String × String)) : List (String × String) :=
  hs.foldr insertByKey []

/-- The template-loading loop at the top of `GenerateConfig`: read each named
template file from the templates directory, failing hard on the first missing
one.  Each file's contents is kept as one opaque chunk. -/
def loadSnippets (tplDir : List (String × String)) : List String → Except String (List String)
  | [] => .ok []
  | n :: ns =>
    match tplDir.lookup n with
    | none => .error ("failed to load template " ++ n)
    | some c =>
      match loadSnippets tplDir ns with
      | .error e => .error e
      | .ok cs => .ok (c :: cs)

/-- `proxy_set_header` directive lines, one per header, in sorted key order. -/
def headerLines (site : Site) : List String :=
  (sortHeaders site.proxySetHeaders).map
    (fun kv => "proxy_set_header " ++ kv.1 ++ " " ++ kv.2 ++ ";")

/-- The `location /` block of the port-80 server in the `serverTmpl` template:
an unconditional 301 redirect when `ForceSSL`, otherwise a proxy to the first
upstream followed by the header overrides, the template snippets and the raw
extra config. -/
def httpRootLocation (site : Site) (snippets : List String) : List String :=
  if site.forceSSL then
    ["location / \x7b", "return 301 https://$host$request_uri;", "\x7d"]
  else
    ["location / \x7b",
     "set $upstream_endpoint \"http://" ++ site.upstreams.headD "" ++ "\";",
     "proxy_pass $upstream_endpoint;"]
    ++ headerLines site
    ++ snippets
    ++ [site.extraConfig, "\x7d"]

/-- The unconditional certbot challenge passthrough of `serverTmpl`. -/
def acmeChallengeBlock : List String :=
  ["location /.well-known/acme-challenge/ \x7b",
   "root /var/www/hubfly;",
   "try_files $uri =404;",
   "\x7d"]

/-- The 502/504 error-page block of `serverTmpl`. -/
def errorPageBlock : List String :=
  ["error_page 502 504 /502.html;",
   "location = /502.html \x7b",
   "root /var/www/hubfly/static;",
   "internal;",
   "\x7d"]

/-- The port-80 server block of `serverTmpl`. -/
def httpServerBlock (site : Site) (snippets : List String) : List String :=
  ["server \x7b", "listen 80;", "server_name " ++ site.domain ++ ";"]
  ++ httpRootLocation site snippets
  ++ acmeChallengeBlock
  ++ errorPageBlock
  ++ ["\x7d"]

/-- The `{{ if .SSL }}` port-443 server block of `serverTmpl` (empty when
`ssl` is off). -/
def sslServerBlock (site : Site) (snippets : List String) : List String :=
  if site.ssl then
    ["server \x7b", "listen 443 ssl;", "http2 on;",
     "server_name " ++ site.domain ++ ";",
     "ssl_certificate /etc/letsencrypt/live/" ++ site.domain ++ "/fullchain.pem;",
     "ssl_certificate_key /etc/letsencrypt/live/" ++ site.domain ++ "/privkey.pem;",
     "location / \x7b",
     "set $upstream_endpoint \"http://" ++ site.upstreams.headD "" ++ "\";",
     "proxy_pass $upstream_endpoint;"]
    ++ headerLines site
    ++ snippets
    ++ [site.extraConfig, "\x7d"]
    ++ errorPageBlock
    ++ ["\x7d"]
  else []

/-- Whether executing `serverTmpl` evaluates `index .Upstreams 0`: the HTTP
block indexes the upstreams unless `ForceSSL` short-circuits it, and the SSL
block indexes them whenever it is rendered. -/
def needsUpstream (site : Site) : Bool :=
  !site.forceSSL || site.ssl

/-- Pure core of `Manager.GenerateConfig`: load the referenced template files,
then execute `serverTmpl` on the site.  Template execution fails (as Go's
`Execute` does) when `index .Upstreams 0` is evaluated on an empty slice. -/
def renderSite (tplDir : List (String × String)) (site : Site) : Except String (List String) :=
  match loadSnippets tplDir site.templates with
  | .error e => .error e
  | .ok snippets =>
    if needsUpstream site && site.upstreams.isEmpty then
      .error "template execution failed: index of empty upstreams"
    else
      .ok (httpServerBlock site snippets ++ sslServerBlock site snippets)

/-- The bytes written to the staging file: the rendered lines joined. -/
def configBytes (lines : List String) : String :=
  String.intercalate "\n" lines

/-! ## Filesystem, stores, and the provisioning worker (internal/api/server.go) -/

/-- The manager's directories as seen by site provisioning: template files,
the staging directory and the live sites directory (file name → contents),
plus a count of `nginx -s reload` invocations. -/
structure FS where
  templates : List (String × String)
  staging : List (String × String)
  sites : List (String × String)
  reloads : Nat
deriving DecidableEq, Repr

/-- Externally observable provisioning events, tagged with the configuration
bytes they concern (the staging path is reused between the two passes, so
contents, not names, identify a staged artifact). -/
inductive Ev where
  | validate (content : String)
  | apply (content : String)
  | issue (domain : String)
deriving DecidableEq, Repr

/-- Outcomes of the external fallible operations during one provisioning run:
certbot issuance and the two `Apply` invocations (rename+reload). -/
structure Env where
  issueOk : Bool
  apply1Ok : Bool
  apply2Ok : Bool
deriving DecidableEq, Repr

/-- `Manager.GenerateConfig`: render, then write the bytes to the staging file
`<site.id>.conf`.  On a render error nothing is written. -/
def generateConfig (site : Site) (fs : FS) : Except String (String × FS) :=
  match renderSite fs.templates site with
  | .error e => .error e
  | .ok lines =>
    let f := site.id ++ ".conf"
    .ok (f, { fs with staging := setAssoc fs.staging f (configBytes lines) })

/-- `Manager.Validate`: the MVP stub returns nil unconditionally, whatever the
staged content is — it never invokes the engine. -/
def validateConfig (_content : String) : Except String Unit :=
  .ok ()

/-- `Manager.Apply`: atomically rename the staging file onto
`<siteID>.conf` in the live sites directory, then reload. -/
def applyConfig (siteID stagingFile : String) (fs : FS) : FS :=
  let content := (fs.staging.lookup stagingFile).getD ""
  { fs with
      staging := delAssoc fs.staging stagingFile,
      sites := setAssoc fs.sites (siteID ++ ".conf") content,
      reloads := fs.reloads + 1 }

/-- Site records keyed by id (the Go `map[string]models.Site` of
`store.JSONStore`). -/
abbrev SiteStore := List (String × Site)

/-- `JSONStore.GetSite`. -/
def getSite (st : SiteStore) (id : String) : Option Site :=
  st.lookup id

/-- `JSONStore.SaveSite`: `s.sites[site.ID] = *site`. -/
def saveSite (st : SiteStore) (site : Site) : SiteStore :=
  setAssoc st site.id site

/-- `Server.updateStatus`: look the record up; on a miss return with the store
untouched; otherwise overwrite status and error message and save. -/
def updateStatus (st : SiteStore) (id status msg : String) : SiteStore :=
  match getSite st id with
  | none => st
  | some site => saveSite st { site with status := status, errorMessage := msg }

/-- `Server.provisionSite`, driven by `env` for the external outcomes; returns
the final filesystem, store, and event trace.  A failed `Apply`'s partial
filesystem effects are not modelled (no claim mentions them). -/
def provisionSite (env : Env) (site : Site) (fs : FS) (st : SiteStore) :
    FS × SiteStore × List Ev :=
  let site1 := if site.ssl then { site with ssl := false } else site
  match generateConfig site1 fs with
  | .error e => (fs, updateStatus st site.id "error" ("config gen failed: " ++ e), [])
  | .ok (f, fs1) =>
    let c1 := (fs1.staging.lookup f).getD ""
    match validateConfig c1 with
    | .error e => (fs1, updateStatus st site.id "error" ("config invalid: " ++ e),
                   [Ev.validate c1])
    | .ok () =>
      if !env.apply1Ok then
        (fs1, updateStatus st site.id "error" "apply failed", [Ev.validate c1])
      else
        let fs2 := applyConfig site.id f fs1
        let evs1 := [Ev.validate c1, Ev.apply c1]
        if !site.ssl then
          (fs2, updateStatus st site.id "active" "", evs1)
        else
          let st1 := updateStatus st site.id "provisioning" "issuing certificate"
          let evs2 := evs1 ++ [Ev.issue site.domain]
          if !env.issueOk then
            (fs2, updateStatus st1 site.id "cert-failed" "certbot failed", evs2)
          else
            let site2 := { site1 with ssl := true, certIssueStatus := "valid" }
            let st2 := saveSite st1 site2
            match generateConfig site2 fs2 with
            | .error e =>
              (fs2, updateStatus st2 site.id "error" ("ssl config gen failed: " ++ e), evs2)
            | .ok (f2, fs3) =>
              let c2 := (fs3.staging.lookup f2).getD ""
              if !env.apply2Ok then
                (fs3, updateStatus st2 site.id "error" "ssl apply failed", evs2)
              else
                (applyConfig site.id f2 fs3, updateStatus st2 site.id "active" "",
                 evs2 ++ [Ev.apply c2])

/-- The record mutations `handleSites` performs before saving: default the id
to the domain, set status `provisioning`. -/
def normalizeSite (site0 : Site) : Site :=
  let sited := if site0.id = "" then { site0 with id := site0.domain } else site0
  { sited with status := "provisioning" }

/-- The POST `/v1/sites` handler core (`handleSites`): normalize, save the
initial record, then run the provisioning worker on a copy. -/
def createSite (env : Env) (site0 : Site) (fs : FS) (st : SiteStore) :
    FS × SiteStore × List Ev :=
  let site := normalizeSite site0
  provisionSite env site fs (saveSite st site)

/-! ## Stream reconciliation (`RebuildStreamConfig` in the manager variant,
`reconcileStreams` in internal/api/server.go) -/

/-- `models.Stream` as consumed by `RebuildStreamConfig` (which also reads a
`Domain` field for SNI discrimination; an absent domain is the empty string),
sans timestamps. -/
structure StreamRec where
  id : String
  listenPort : Nat
  upstream : String
  protocol : String
  domain : String
  status : String
  errorMessage : String
deriving DecidableEq, Repr

/-- The plain pass-through server block rendered when a port carries exactly
one stream with no domain. -/
def renderPassthrough (s : StreamRec) : List String :=
  let proto := if s.protocol = "udp" then " udp" else ""
  ["server \x7b",
   "listen " ++ toString s.listenPort ++ proto ++ ";",
   "listen [::]:" ++ toString s.listenPort ++ proto ++ ";",
   "proxy_pass " ++ s.upstream ++ ";",
   "\x7d"]

/-- One `map` entry line per domain-tagged stream, in iteration order (the
loop over `streams` writing `"    %s %s;"` for each `s.Domain != ""`). -/
def sniMapEntries : List StreamRec → List String
  | [] => []
  | s :: rest =>
    (if s.domain ≠ "" then [s.domain ++ " " ++ s.upstream ++ ";"] else [])
    ++ sniMapEntries rest

/-- The loop searching for the first stream with an empty domain, used for the
map's `default` entry. -/
def firstDefault : List StreamRec → Option StreamRec
  | [] => none
  | s :: rest => if s.domain = "" then some s else firstDefault rest

/-- The optional `default` line of the SNI map. -/
def sniDefaultLines (streams : List StreamRec) : List String :=
  match firstDefault streams with
  | some d => ["default " ++ d.upstream ++ ";"]
  | none => []

/-- Header line of the per-port SNI map block. -/
def sniMapHeader (port : Nat) : String :=
  "map $ssl_preread_server_name $stream_map_" ++ toString port ++ " \x7b"

/-- The `ssl_preread` listener that consults the SNI map. -/
def sniListener (port : Nat) : List String :=
  ["server \x7b",
   "listen " ++ toString port ++ ";",
   "ssl_preread on;",
   "proxy_pass $stream_map_" ++ toString port ++ ";",
   "\x7d"]

/-- The SNI map/listener pair rendered for a port. -/
def renderSNIBlock (port : Nat) (streams : List StreamRec) : List String :=
  sniMapHeader port :: sniMapEntries streams
  ++ sniDefaultLines streams ++ ["\x7d"] ++ sniListener port

/-- Rendering decision of `RebuildStreamConfig`: `none` means the port's file
is deleted (empty record set); otherwise the rendered lines.  The Go guard is
`useSNI = len(streams) > 1 || streams[0].Domain != ""`, i.e. a pass-through is
rendered exactly for a singleton set with no domain. -/
def renderStreamPort (port : Nat) : List StreamRec → Option (List String)
  | [] => none
  | s :: rest =>
    if rest.isEmpty && s.domain == "" then some (renderPassthrough s)
    else some (renderSNIBlock port (s :: rest))

/-- The stream side of the manager: per-port live config files and reloads. -/
structure StreamFS where
  files : List (String × String)
  reloads : Nat
deriving DecidableEq, Repr

/-- `Manager.RebuildStreamConfig` / `Manager.DeleteStreamConfig`: write (or
remove) `port_<port>.conf` and reload. -/
def rebuildStreamConfig (port : Nat) (streams : List StreamRec) (sfs : StreamFS) : StreamFS :=
  let name := "port_" ++ toString port ++ ".conf"
  match renderStreamPort port streams with
  | none => { sfs with files := delAssoc sfs.files name, reloads := sfs.reloads + 1 }
  | some lines =>
    { sfs with files := setAssoc sfs.files name (configBytes lines),
               reloads := sfs.reloads + 1 }

/-- StreamRec records keyed by id (the Go `map[string]models.Stream`). -/
abbrev StreamStore := List (String × StreamRec)

/-- `JSONStore.GetStream`. -/
def getStream (st : StreamStore) (id : String) : Option StreamRec :=
  st.lookup id

/-- `JSONStore.SaveStream`. -/
def saveStream (st : StreamStore) (s : StreamRec) : StreamStore :=
  setAssoc st s.id s

/-- `JSONStore.ListStreams`: the stored records. -/
def listStreams (st : StreamStore) : List StreamRec :=
  st.map Prod.snd

/-- `Server.updateStreamStatus`: a miss returns with the store untouched. -/
def updateStreamStatus (st : StreamStore) (id status msg : String) : StreamStore :=
  match getStream st id with
  | none => st
  | some s => saveStream st { s with status := status, errorMessage := msg }

/-- The loop body of `reconcileStreams`' success path: streams not already
active are marked active with an empty error message. -/
def markActive (acc : StreamStore) (s : StreamRec) : StreamStore :=
  if s.status ≠ "active" then updateStreamStatus acc s.id "active" "" else acc

/-- `Server.reconcileStreams`: list the records, filter to the port, rebuild
the port's config (success decided by the external `rebuildOk`: write/reload
failures), and only on success mark every non-active record of the port
active.  A failed rebuild only logs; record statuses stay as they were. -/
def reconcileStreams (rebuildOk : Bool) (st : StreamStore) (port : Nat) (sfs : StreamFS) :
    StreamStore × StreamFS :=
  let portStreams := (listStreams st).filter (fun s => s.listenPort == port)
  if rebuildOk then
    let sfs' := rebuildStreamConfig port portStreams sfs
    (portStreams.foldl markActive st, sfs')
  else
    (st, sfs)

/-! ## Firewall rendering (modelled) -/

/-- `models.IPRule` (internal/models/site.go). -/
structure IPRule where
  value : String
  action : String
deriving DecidableEq, Repr

/-- `models.FirewallConfig`, restricted to the `ip_rules` list (the block and
rate-limit rules are not touched by any claim below). -/
structure FirewallConfig where
  ipRules : List IPRule
deriving DecidableEq, Repr

/-- The single `allow`/`deny` directive rendered for one IP rule. -/
def ipRuleLine (r : IPRule) : String :=
  r.action ++ " " ++ r.value ++ ";"

/-- Modelled from the spec: the firewall-rendering loop of `GenerateConfig` is
absent from every `manager.go` under src (only its data model
`models.FirewallConfig` and its tests `firewall_test.go` are present); per the
spec's Template Compiler contract, IP rules render as one `allow`/`deny`
directive per entry, in the exact input order. -/
def renderIPRules : List IPRule → List String
  | [] => []
  | r :: rest => ipRuleLine r :: renderIPRules rest

/-- Modelled from the spec: the firewall-aware site render attaches the
compiled firewall fragment to the site's server block (spec: the Template
Compiler's fragments are attached to the rendered virtual host; nginx
`allow`/`deny` live in server context, as `firewall_test.go` expects them for
plain proxying sites). -/
def renderSiteWithFirewall (site : Site) (fw : FirewallConfig) (snippets : List String) :
    List String :=
  ["server \x7b", "listen 80;", "server_name " ++ site.domain ++ ";"]
  ++ renderIPRules fw.ipRules
  ++ httpRootLocation site snippets
  ++ acmeChallengeBlock
  ++ errorPageBlock
  ++ ["\x7d"]

/-! ## Basic store lemmas -/

theorem lookup_cons (k' : String) (v' : α) (rest : List (String × α)) (id : String) :
    List.lookup id ((k', v') :: rest) = if id = k' then some v' else List.lookup id rest := by
  cases hbeq : id == k'
  · have hne : id ≠ k' := by
      intro he
      subst he
      simp at hbeq
    rw [if_neg hne]
    simp [List.lookup, hbeq]
  · rw [if_pos (eq_of_beq hbeq)]
    simp [List.lookup, hbeq]

theorem lookup_setAssoc (m : List (String × α)) (k : String) (v : α) (id : String) :
    (setAssoc m k v).lookup id = if id = k then some v else m.lookup id := by
  induction m with
  | nil =>
    show List.lookup id [(k, v)] = _
    rw [lookup_cons]
  | cons p rest ih =>
    obtain ⟨k', v'⟩ := p
    by_cases h : k' = k
    · subst h
      by_cases h2 : id = k' <;> simp [setAssoc, lookup_cons, h2]
    · by_cases h2 : id = k'
      · subst h2
        simp [setAssoc, lookup_cons, h, Ne.symm h]
      · simp [setAssoc, lookup_cons, h, h2, ih]

theorem mem_lookup_of_nodup (m : List (String × α)) (hnd : (m.map Prod.fst).Nodup)
    (k : String) (v : α) (h : (k, v) ∈ m) : m.lookup k = some v := by
  induction m with
  | nil => simp at h
  | cons p rest ih =>
    obtain ⟨k', v'⟩ := p
    rcases List.mem_cons.mp h with h1 | h1
    · cases h1
      simp [lookup_cons]
    · have hk : k ≠ k' := fun he =>
        (List.nodup_cons.mp hnd).1 (he ▸ List.mem_map.mpr ⟨(k, v), h1, rfl⟩)
      rw [lookup_cons, if_neg hk]
      exact ih (List.nodup_cons.mp hnd).2 h1

theorem lookup_mem (m : List (String × α)) (k : String) (v : α)
    (h : m.lookup k = some v) : (k, v) ∈ m := by
  induction m with
  | nil => simp [List.lookup] at h
  | cons p rest ih =>
    obtain ⟨k', v'⟩ := p
    rw [lookup_cons] at h
    by_cases he : k = k'
    · subst he
      rw [if_pos rfl] at h
      cases h
      exact List.mem_cons_self _ _
    · rw [if_neg he] at h
      exact List.mem_cons_of_mem _ (ih h)

/-! ## Renderer lemmas -/

theorem renderSite_ok_decomp (tpl : List (String × String)) (site : Site) (lines : List String)
    (h : renderSite tpl site = .ok lines) :
    ∃ snippets, loadSnippets tpl site.templates = .ok snippets ∧
      lines = httpServerBlock site snippets ++ sslServerBlock site snippets := by
  cases hl : loadSnippets tpl site.templates with
  | error e => simp [renderSite, hl] at h
  | ok snippets =>
    simp only [renderSite, hl] at h
    by_cases hc : needsUpstream site && site.upstreams.isEmpty
    · simp [hc] at h
    · simp only [hc, if_neg, Bool.false_eq_true, ite_false, Except.ok.injEq] at h
      exact ⟨snippets, rfl, h.symm⟩

theorem renderIPRules_map (rs : List IPRule) : renderIPRules rs = rs.map ipRuleLine := by
  induction rs with
  | nil => rfl
  | cons r rest ih => simp [renderIPRules, ih]

/-- Bool prefix test on character lists. -/
def strSegAt : List Char → List Char → Bool
  | [], _ => true
  | _ :: _, [] => false
  | a :: as, b :: bs => a == b && strSegAt as bs

/-- Bool test: does the needle occur anywhere in the haystack? -/
def strHasSeg (needle : List Char) : List Char → Bool
  | [] => needle.isEmpty
  | b :: bs => strSegAt needle (b :: bs) || strHasSeg needle bs

/-- Does `line` contain `needle` as a substring? -/
def lineHas (needle line : String) : Bool :=
  strHasSeg needle.data line.data

/-! ## Concrete demonstration inputs for witnesses -/

/-- An ssl-requesting site as in the spec's end-to-end scenario. -/
def demoSite : Site :=
  { id := "a.test", domain := "a.test", upstreams := ["10.0.0.1:80"],
    forceSSL := false, ssl := true, templates := [], extraConfig := "",
    proxySetHeaders := [], status := "", errorMessage := "", certIssueStatus := "" }

/-- All external operations succeed. -/
def demoEnv : Env :=
  { issueOk := true, apply1Ok := true, apply2Ok := true }

/-- An empty manager filesystem. -/
def demoFS : FS :=
  { templates := [], staging := [], sites := [], reloads := 0 }

/-- Same templates as `demoFS`, different staging/sites/reloads. -/
def demoFS2 : FS :=
  { templates := [], staging := [("junk.conf", "junk")], sites := [("old.conf", "old")],
    reloads := 7 }

/-! ## Claim theorems -/

/-- C6: Site rendering is deterministic and effect-free with respect to the
live engine: two runs of `GenerateConfig` over identical site records and
identical template-file contents render identical bytes, and a successful
`GenerateConfig` writes only to the staging directory — the live sites
directory, the reload count and the template directory are untouched. -/
theorem generateConfig_pure_deterministic (site : Site) (fs1 fs2 : FS)
    (h : fs1.templates = fs2.templates) :
    renderSite fs1.templates site = renderSite fs2.templates site
    ∧ (∀ f fs', generateConfig site fs1 = .ok (f, fs') →
        fs'.sites = fs1.sites ∧ fs'.reloads = fs1.reloads ∧ fs'.templates = fs1.templates) := by
  refine ⟨by rw [h], ?_⟩
  intro f fs' hgen
  cases hr : renderSite fs1.templates site with
  | error e => simp [generateConfig, hr] at hgen
  | ok lines =>
    simp only [generateConfig, hr, Except.ok.injEq, Prod.mk.injEq] at hgen
    obtain ⟨-, hfs⟩ := hgen
    subst hfs
    exact ⟨rfl, rfl, rfl⟩

/-- C6 witness: the two runs on the concrete demo filesystems agree. -/
theorem generateConfig_pure_deterministic_witness :
    renderSite demoFS.templates demoSite = renderSite demoFS2.templates demoSite :=
  (generateConfig_pure_deterministic demoSite demoFS demoFS2 rfl).1

/-- C7: for every site whose rendering succeeds, whatever `ssl` and
`force_ssl` are, the rendered document decomposes into the HTTP block followed
by the (possibly empty) HTTPS block, and the HTTP block contains the
unconditional ACME challenge passthrough rooted at the fixed webroot. -/
theorem acme_passthrough_always (tpl : List (String × String)) (site : Site)
    (lines : List String) (h : renderSite tpl site = .ok lines) :
    ∃ snippets, loadSnippets tpl site.templates = .ok snippets ∧
      lines = httpServerBlock site snippets ++ sslServerBlock site snippets ∧
      isSegmentOf acmeChallengeBlock (httpServerBlock site snippets) := by
  obtain ⟨sn, hsn, rfl⟩ := renderSite_ok_decomp _ _ _ h
  refine ⟨sn, hsn, rfl, ?_⟩
  refine ⟨["server \x7b", "listen 80;", "server_name " ++ site.domain ++ ";"]
      ++ httpRootLocation site sn,
    errorPageBlock ++ ["\x7d"], ?_⟩
  simp [httpServerBlock]

/-- C7 witness: at the concrete demo site (ssl on, force_ssl off). -/
theorem acme_passthrough_always_witness :
    ∃ snippets, loadSnippets [] demoSite.templates = .ok snippets ∧
      httpServerBlock demoSite [] ++ sslServerBlock demoSite []
        = httpServerBlock demoSite snippets ++ sslServerBlock demoSite snippets ∧
      isSegmentOf acmeChallengeBlock (httpServerBlock demoSite snippets) :=
  acme_passthrough_always [] demoSite
    (httpServerBlock demoSite [] ++ sslServerBlock demoSite []) rfl

/-- C8: for every site with `force_ssl` whose rendering succeeds, the HTTP
block's root location is exactly the unconditional 301 redirect to HTTPS, and
no line of that root location carries a `proxy_pass` directive. -/
theorem forceSSL_http_redirect_only (tpl : List (String × String)) (site : Site)
    (lines : List String) (hforce : site.forceSSL = true)
    (h : renderSite tpl site = .ok lines) :
    ∃ snippets, loadSnippets tpl site.templates = .ok snippets ∧
      lines = httpServerBlock site snippets ++ sslServerBlock site snippets ∧
      httpRootLocation site snippets =
        ["location / \x7b", "return 301 https://$host$request_uri;", "\x7d"] ∧
      ∀ l ∈ httpRootLocation site snippets, lineHas "proxy_pass" l = false := by
  obtain ⟨sn, hsn, rfl⟩ := renderSite_ok_decomp _ _ _ h
  have hroot : httpRootLocation site sn =
      ["location / \x7b", "return 301 https://$host$request_uri;", "\x7d"] := by
    simp [httpRootLocation, hforce]
  refine ⟨sn, hsn, rfl, hroot, ?_⟩
  rw [hroot]
  decide

/-- A force_ssl variant of the demo site for the C8 witness. -/
def demoSiteForce : Site :=
  { demoSite with forceSSL := true }

/-- C8 witness: at the concrete force_ssl demo site. -/
theorem forceSSL_http_redirect_only_witness :
    ∃ snippets, loadSnippets [] demoSiteForce.templates = .ok snippets ∧
      httpServerBlock demoSiteForce [] ++ sslServerBlock demoSiteForce []
        = httpServerBlock demoSiteForce snippets ++ sslServerBlock demoSiteForce snippets ∧
      httpRootLocation demoSiteForce snippets =
        ["location / \x7b", "return 301 https://$host$request_uri;", "\x7d"] ∧
      ∀ l ∈ httpRootLocation demoSiteForce snippets, lineHas "proxy_pass" l = false :=
  forceSSL_http_redirect_only [] demoSiteForce
    (httpServerBlock demoSiteForce [] ++ sslServerBlock demoSiteForce []) rfl rfl

/-- C4 (spec-modelled): a site with a non-empty `ip_rules` list renders one
`allow`/`deny` directive per rule, appearing consecutively and in exactly the
input order inside the rendered server block. -/
theorem firewall_ip_rules_in_order (site : Site) (fw : FirewallConfig)
    (snippets : List String) (hne : fw.ipRules ≠ []) :
    isSegmentOf (fw.ipRules.map ipRuleLine) (renderSiteWithFirewall site fw snippets)
    ∧ (fw.ipRules.map ipRuleLine).length = fw.ipRules.length := by
  refine ⟨?_, by simp⟩
  refine ⟨["server \x7b", "listen 80;", "server_name " ++ site.domain ++ ";"],
    httpRootLocation site snippets ++ acmeChallengeBlock ++ errorPageBlock ++ ["\x7d"], ?_⟩
  simp [renderSiteWithFirewall, renderIPRules_map]

/-- The ordered rule list of the repository's own firewall test. -/
def demoRules : FirewallConfig :=
  { ipRules := [⟨"192.168.1.100", "allow"⟩, ⟨"192.168.1.0/24", "deny"⟩, ⟨"all", "allow"⟩] }

/-- C4 witness: the three test rules render in exactly the test's order. -/
theorem firewall_ip_rules_in_order_witness :
    isSegmentOf (demoRules.ipRules.map ipRuleLine)
      (renderSiteWithFirewall demoSite demoRules [])
    ∧ (demoRules.ipRules.map ipRuleLine).length = demoRules.ipRules.length :=
  firewall_ip_rules_in_order demoSite demoRules [] (by decide)

/-- C10: a status update against a Site or Stream id absent from the store is
a silent no-op: `updateStatus` and `updateStreamStatus` return with the store
completely unchanged. -/
theorem updateStatus_missing_noop (sst : SiteStore) (tst : StreamStore)
    (id status msg : String) :
    (getSite sst id = none → updateStatus sst id status msg = sst)
    ∧ (getStream tst id = none → updateStreamStatus tst id status msg = tst) := by
  constructor
  · intro h
    simp [updateStatus, h]
  · intro h
    simp [updateStreamStatus, h]

/-- C10 witness: concrete stores without the id `ghost`. -/
theorem updateStatus_missing_noop_witness :
    updateStatus [("a.test", demoSite)] "ghost" "active" "" = [("a.test", demoSite)]
    ∧ updateStreamStatus [] "ghost" "active" "" = ([] : StreamStore) :=
  ⟨(updateStatus_missing_noop [("a.test", demoSite)] [] "ghost" "active" "").1 (by decide),
   (updateStatus_missing_noop [] [] "ghost" "active" "").2 (by decide)⟩

theorem sniMapEntries_eq_filter_map (L : List StreamRec) :
    sniMapEntries L =
      (L.filter (fun s => s.domain != "")).map (fun s => s.domain ++ " " ++ s.upstream ++ ";") := by
  induction L with
  | nil => rfl
  | cons s rest ih =>
    by_cases h : s.domain = ""
    · have hb : (s.domain != "") = false := by simp [h]
      simp [sniMapEntries, List.filter_cons, h, hb, ih]
    · have hb : (s.domain != "") = true := bne_iff_ne.mpr h
      simp [sniMapEntries, List.filter_cons, h, hb, ih]

theorem firstDefault_eq_find (L : List StreamRec) :
    firstDefault L = L.find? (fun s => s.domain == "") := by
  induction L with
  | nil => rfl
  | cons s rest ih =>
    by_cases h : s.domain = ""
    · have hb : (s.domain == "") = true := beq_iff_eq.mpr h
      simp [firstDefault, List.find?_cons, h, hb]
    · have hb : (s.domain == "") = false := beq_eq_false_iff_ne.mpr h
      simp [firstDefault, List.find?_cons, h, hb, ih]

theorem renderSNIBlock_length (port : Nat) (L : List StreamRec) :
    (renderSNIBlock port L).length =
      7 + (sniMapEntries L).length + (sniDefaultLines L).length := by
  simp [renderSNIBlock, sniListener]
  omega

theorem renderPassthrough_length (s : StreamRec) :
    (renderPassthrough s).length = 5 := by
  simp [renderPassthrough]

/-- C3: per-port stream reconciliation renders exactly one of three artifacts:
deletion for an empty record set; a direct pass-through for a singleton with
no domain; otherwise an SNI map/listener pair carrying one map entry per
domain-tagged record in order, plus a `default` entry from the first record
with no domain (if any) — and in that last case never a pass-through block. -/
theorem renderStreamPort_cases (port : Nat) (streams : List StreamRec) :
    (streams = [] → renderStreamPort port streams = none)
    ∧ (∀ s, streams = [s] → s.domain = "" →
        renderStreamPort port streams = some (renderPassthrough s))
    ∧ ((2 ≤ streams.length ∨ ∃ s ∈ streams, s.domain ≠ "") →
        renderStreamPort port streams =
          some (sniMapHeader port ::
            ((streams.filter (fun s => s.domain != "")).map
                (fun s => s.domain ++ " " ++ s.upstream ++ ";")
              ++ (match streams.find? (fun s => s.domain == "") with
                  | some d => ["default " ++ d.upstream ++ ";"]
                  | none => [])
              ++ ["\x7d"] ++ sniListener port))
        ∧ ∀ s', renderStreamPort port streams ≠ some (renderPassthrough s')) := by
  refine ⟨?_, ?_, ?_⟩
  · rintro rfl
    rfl
  · rintro s rfl hdom
    simp [renderStreamPort, hdom]
  · intro hbig
    obtain ⟨s, rest, rfl⟩ : ∃ s rest, streams = s :: rest := by
      cases streams with
      | nil =>
        exfalso
        rcases hbig with h | ⟨s, hs, -⟩
        · simp at h
        · simp at hs
      | cons s rest => exact ⟨s, rest, rfl⟩
    have hsni : (rest.isEmpty && s.domain == "") = false := by
      cases hb : (rest.isEmpty && s.domain == "") with
      | false => rfl
      | true =>
        exfalso
        rw [Bool.and_eq_true, List.isEmpty_iff, beq_iff_eq] at hb
        obtain ⟨hrest, hdom⟩ := hb
        subst hrest
        rcases hbig with h | ⟨t, ht, htd⟩
        · simp at h
        · rw [List.mem_singleton] at ht
          subst ht
          exact htd hdom
    have hren : renderStreamPort port (s :: rest) = some (renderSNIBlock port (s :: rest)) := by
      simp [renderStreamPort, hsni]
    constructor
    · rw [hren]
      congr 1
      rw [renderSNIBlock, sniMapEntries_eq_filter_map, sniDefaultLines, firstDefault_eq_find]
      simp [List.append_assoc]
    · intro s' hcon
      rw [hren] at hcon
      have hlen := congrArg (fun o => (o.getD []).length) hcon
      simp [renderSNIBlock_length, renderPassthrough_length] at hlen
      omega

/-- SNI demo: two records on one port, one domain-tagged, one default. -/
def demoStreams : List StreamRec :=
  [{ id := "s1", listenPort := 9000, upstream := "10.0.0.5:5432", protocol := "tcp",
     domain := "db.test", status := "provisioning", errorMessage := "" },
   { id := "s2", listenPort := 9000, upstream := "10.0.0.6:5432", protocol := "tcp",
     domain := "", status := "provisioning", errorMessage := "" }]

/-- C3 witness: the two-record demo port renders the SNI pair, never a
pass-through. -/
theorem renderStreamPort_cases_witness :
    renderStreamPort 9000 demoStreams =
      some (sniMapHeader 9000 ::
        ((demoStreams.filter (fun s => s.domain != "")).map
            (fun s => s.domain ++ " " ++ s.upstream ++ ";")
          ++ (match demoStreams.find? (fun s => s.domain == "") with
              | some d => ["default " ++ d.upstream ++ ";"]
              | none => [])
          ++ ["\x7d"] ++ sniListener 9000))
    ∧ ∀ s', renderStreamPort 9000 demoStreams ≠ some (renderPassthrough s') :=
  (renderStreamPort_cases 9000 demoStreams).2.2 (Or.inl (by decide))

/-! ## Provisioning-worker lemmas -/

theorem normalizeSite_templates (s : Site) : (normalizeSite s).templates = s.templates := by
  unfold normalizeSite
  by_cases h : s.id = "" <;> simp [h]

theorem normalizeSite_ssl (s : Site) : (normalizeSite s).ssl = s.ssl := by
  unfold normalizeSite
  by_cases h : s.id = "" <;> simp [h]

theorem normalizeSite_domain (s : Site) : (normalizeSite s).domain = s.domain := by
  unfold normalizeSite
  by_cases h : s.id = "" <;> simp [h]

theorem getSite_saveSite (st : SiteStore) (s : Site) :
    getSite (saveSite st s) s.id = some s := by
  simp [getSite, saveSite, lookup_setAssoc]

theorem loadSnippets_missing (tplDir : List (String × String)) (names : List String)
    (t : String) (ht : t ∈ names) (hmiss : tplDir.lookup t = none) :
    ∃ e, loadSnippets tplDir names = .error e := by
  induction names with
  | nil => simp at ht
  | cons n ns ih =>
    rcases List.mem_cons.mp ht with h | h
    · subst h
      exact ⟨"failed to load template " ++ t, by simp [loadSnippets, hmiss]⟩
    · cases hl : tplDir.lookup n with
      | none => exact ⟨"failed to load template " ++ n, by simp [loadSnippets, hl]⟩
      | some c =>
        obtain ⟨e, he⟩ := ih h
        exact ⟨e, by simp [loadSnippets, hl, he]⟩

theorem renderSite_error_of_missing (tplDir : List (String × String)) (site : Site)
    (t : String) (ht : t ∈ site.templates) (hmiss : tplDir.lookup t = none) :
    ∃ e, renderSite tplDir site = .error e := by
  obtain ⟨e, he⟩ := loadSnippets_missing tplDir site.templates t ht hmiss
  exact ⟨e, by simp [renderSite, he]⟩

theorem provisionSite_genError (env : Env) (site : Site) (fs : FS) (st : SiteStore) (e : String)
    (hgen : generateConfig (if site.ssl then { site with ssl := false } else site) fs
      = .error e) :
    provisionSite env site fs st =
      (fs, updateStatus st site.id "error" ("config gen failed: " ++ e), []) := by
  unfold provisionSite
  simp only [hgen]

/-- C5: a site referencing a template name with no template file fails closed:
rendering errors, the worker records status `error`, no validate/apply event
occurs, and the whole filesystem — live sites directory included — is
byte-identical before and after the attempt. -/
theorem missing_template_fails_closed (env : Env) (site0 : Site) (fs : FS) (st : SiteStore)
    (t : String) (ht : t ∈ site0.templates) (hmiss : fs.templates.lookup t = none) :
    (createSite env site0 fs st).1 = fs
    ∧ (createSite env site0 fs st).2.2 = []
    ∧ ∃ r, getSite (createSite env site0 fs st).2.1 (normalizeSite site0).id = some r
        ∧ r.status = "error" := by
  have hsite1 : (if (normalizeSite site0).ssl then { normalizeSite site0 with ssl := false }
      else normalizeSite site0).templates = site0.templates := by
    by_cases h : (normalizeSite site0).ssl <;> simp [h, normalizeSite_templates]
  obtain ⟨e, he⟩ := renderSite_error_of_missing fs.templates _ t (by rw [hsite1]; exact ht) hmiss
  have hgen : generateConfig (if (normalizeSite site0).ssl
      then { normalizeSite site0 with ssl := false } else normalizeSite site0) fs
      = .error e := by
    simp [generateConfig, he]
  have hcs : createSite env site0 fs st =
      (fs, updateStatus (saveSite st (normalizeSite site0)) (normalizeSite site0).id
        "error" ("config gen failed: " ++ e), []) := by
    unfold createSite
    exact provisionSite_genError env (normalizeSite site0) fs
      (saveSite st (normalizeSite site0)) e hgen
  rw [hcs]
  refine ⟨rfl, rfl, ?_⟩
  refine Exists.intro
    { normalizeSite site0 with status := "error", errorMessage := "config gen failed: " ++ e }
    ⟨?_, rfl⟩
  have hget : getSite (saveSite st (normalizeSite site0)) (normalizeSite site0).id
      = some (normalizeSite site0) := getSite_saveSite _ _
  simp [updateStatus, hget, getSite, saveSite, lookup_setAssoc]

/-- The demo site pointing at a template name with no file behind it. -/
def demoSiteTpl : Site :=
  { demoSite with templates := ["cache"] }

/-- C5 witness: the concrete site referencing the absent `cache` template. -/
theorem missing_template_fails_closed_witness :
    (createSite demoEnv demoSiteTpl demoFS []).1 = demoFS
    ∧ (createSite demoEnv demoSiteTpl demoFS []).2.2 = []
    ∧ ∃ r, getSite (createSite demoEnv demoSiteTpl demoFS []).2.1
        (normalizeSite demoSiteTpl).id = some r ∧ r.status = "error" :=
  missing_template_fails_closed demoEnv demoSiteTpl demoFS [] "cache" (by decide) (by decide)

set_option maxRecDepth 4000 in
/-- C1 (failing input): provisioning the concrete ssl site `a.test` with all
external operations succeeding swaps a configuration into the live sites
directory — the re-rendered SSL config, exactly the bytes ending up live —
for which no validation event ever occurred: the second `Apply` in
`provisionSite` is invoked without `Validate` (and `Validate` itself is a
stub returning nil without consulting the engine: `validateConfig` is
unconditionally `.ok`). -/
theorem apply_without_validate_on_ssl_reapply :
    Ev.apply (((createSite demoEnv demoSite demoFS []).1.sites.lookup "a.test.conf").getD "")
      ∈ (createSite demoEnv demoSite demoFS []).2.2
    ∧ Ev.validate (((createSite demoEnv demoSite demoFS []).1.sites.lookup
        "a.test.conf").getD "")
      ∉ (createSite demoEnv demoSite demoFS []).2.2 := by
  decide

/-- The MVP `Validate` never rejects: it returns nil for every staged
artifact without consulting the engine. -/
theorem validateConfig_accepts_everything (c : String) : validateConfig c = .ok () :=
  rfl

/-- The filesystem after `GenerateConfig` wrote `<id>.conf` to staging. -/
def stagedFS (fs : FS) (id : String) (lines : List String) : FS :=
  { fs with staging := setAssoc fs.staging (id ++ ".conf") (configBytes lines) }

theorem stagedFS_staging (fs : FS) (id : String) (lines : List String) :
    (stagedFS fs id lines).staging
      = setAssoc fs.staging (id ++ ".conf") (configBytes lines) := rfl

theorem generateConfig_eq_ok (site : Site) (fs : FS) (lines : List String)
    (h : renderSite fs.templates site = .ok lines) :
    generateConfig site fs = .ok (site.id ++ ".conf", stagedFS fs site.id lines) := by
  simp [generateConfig, h, stagedFS]

theorem getSite_updateStatus_self (st : SiteStore) (s : Site) (id status msg : String)
    (h : getSite st id = some s) (hid : s.id = id) :
    getSite (updateStatus st id status msg) id
      = some { s with status := status, errorMessage := msg } := by
  have h' : List.lookup id st = some s := h
  simp [updateStatus, getSite, h', saveSite, lookup_setAssoc, hid]

theorem provisionSite_two_phase_ssl_aux (env : Env) (ns : Site) (fs : FS) (st : SiteStore)
    (lines1 : List String)
    (hsssl : ns.ssl = true)
    (happly1 : env.apply1Ok = true)
    (hrender : renderSite fs.templates { ns with ssl := false } = .ok lines1) :
    (provisionSite env ns fs (saveSite st ns)).2.2.take 3 =
      [Ev.validate (configBytes lines1), Ev.apply (configBytes lines1), Ev.issue ns.domain]
    ∧ (env.issueOk = false →
        (∃ r, getSite (provisionSite env ns fs (saveSite st ns)).2.1 ns.id = some r
            ∧ r.status = "cert-failed" ∧ r.ssl = true)
        ∧ (provisionSite env ns fs (saveSite st ns)).1.sites.lookup (ns.id ++ ".conf")
            = some (configBytes lines1))
    ∧ (env.issueOk = true →
        ∃ r, getSite (provisionSite env ns fs (saveSite st ns)).2.1 ns.id = some r
          ∧ r.ssl = true ∧ r.certIssueStatus = "valid"
          ∧ (∀ e, renderSite fs.templates { ns with ssl := true, certIssueStatus := "valid" }
                = .error e → r.status = "error")
          ∧ (∀ lines2, renderSite fs.templates
                { ns with ssl := true, certIssueStatus := "valid" } = .ok lines2 →
              r.status = (if env.apply2Ok then "active" else "error")
              ∧ (env.apply2Ok = true →
                  (provisionSite env ns fs (saveSite st ns)).1.sites.lookup
                    (ns.id ++ ".conf") = some (configBytes lines2)))) := by
  have hgen1 : generateConfig { ns with ssl := false } fs =
      .ok (ns.id ++ ".conf", stagedFS fs ns.id lines1) :=
    generateConfig_eq_ok { ns with ssl := false } fs lines1 hrender
  have hsite2 : ({ { ns with ssl := false } with ssl := true, certIssueStatus := "valid" }
      : Site) = { ns with ssl := true, certIssueStatus := "valid" } := rfl
  obtain ⟨io, a1, a2⟩ := env
  simp only [Env.apply1Ok] at happly1
  subst happly1
  cases io with
  | false =>
    have hrun : provisionSite ⟨false, true, a2⟩ ns fs (saveSite st ns)
        = (applyConfig ns.id (ns.id ++ ".conf") (stagedFS fs ns.id lines1),
           updateStatus
             (updateStatus (saveSite st ns) ns.id "provisioning" "issuing certificate")
             ns.id "cert-failed" "certbot failed",
           [Ev.validate (configBytes lines1), Ev.apply (configBytes lines1),
            Ev.issue ns.domain]) := by
      simp [provisionSite, hsssl, hgen1, validateConfig, stagedFS_staging, lookup_setAssoc]
    rw [hrun]
    refine ⟨by simp, ?_, by simp⟩
    intro _
    have hget1 : getSite (saveSite st ns) ns.id = some ns := getSite_saveSite st ns
    have hget2 : getSite
        (updateStatus (saveSite st ns) ns.id "provisioning" "issuing certificate") ns.id
        = some { ns with status := "provisioning", errorMessage := "issuing certificate" } :=
      getSite_updateStatus_self _ _ _ _ _ hget1 rfl
    have hget3 := getSite_updateStatus_self _ _ ns.id "cert-failed" "certbot failed" hget2 rfl
    refine ⟨⟨_, hget3, rfl, ?_⟩, ?_⟩
    · exact hsssl
    · simp [applyConfig, stagedFS, lookup_setAssoc]
  | true =>
    cases hr2 : renderSite fs.templates { ns with ssl := true, certIssueStatus := "valid" } with
    | error e =>
      have hgen2 : generateConfig { ns with ssl := true, certIssueStatus := "valid" }
          (applyConfig ns.id (ns.id ++ ".conf") (stagedFS fs ns.id lines1)) = .error e := by
        have hr2c : renderSite
            (applyConfig ns.id (ns.id ++ ".conf") (stagedFS fs ns.id lines1)).templates
            { ns with ssl := true, certIssueStatus := "valid" } = .error e := hr2
        simp [generateConfig, hr2c]
      have hrun : provisionSite ⟨true, true, a2⟩ ns fs (saveSite st ns)
          = (applyConfig ns.id (ns.id ++ ".conf") (stagedFS fs ns.id lines1),
             updateStatus
               (saveSite
                 (updateStatus (saveSite st ns) ns.id "provisioning" "issuing certificate")
                 { ns with ssl := true, certIssueStatus := "valid" })
               ns.id "error" ("ssl config gen failed: " ++ e),
             [Ev.validate (configBytes lines1), Ev.apply (configBytes lines1),
              Ev.issue ns.domain]) := by
        simp [provisionSite, hsssl, hgen1, validateConfig, stagedFS_staging, lookup_setAssoc,
          hsite2, hgen2]
      rw [hrun]
      refine ⟨by simp, by simp, ?_⟩
      intro _
      have hget2 : getSite
          (saveSite (updateStatus (saveSite st ns) ns.id "provisioning" "issuing certificate")
            { ns with ssl := true, certIssueStatus := "valid" }) ns.id
          = some { ns with ssl := true, certIssueStatus := "valid" } :=
        getSite_saveSite _ _
      have hget3 := getSite_updateStatus_self _ _ ns.id "error"
        ("ssl config gen failed: " ++ e) hget2 rfl
      refine ⟨_, hget3, rfl, rfl, fun e' _ => rfl, ?_⟩
      intro lines2 hl2
      exact Except.noConfusion hl2
    | ok lines2 =>
      have hgen2 : generateConfig { ns with ssl := true, certIssueStatus := "valid" }
          (applyConfig ns.id (ns.id ++ ".conf") (stagedFS fs ns.id lines1))
          = .ok (ns.id ++ ".conf",
              stagedFS (applyConfig ns.id (ns.id ++ ".conf") (stagedFS fs ns.id lines1))
                ns.id lines2) := by
        have hr2c : renderSite
            (applyConfig ns.id (ns.id ++ ".conf") (stagedFS fs ns.id lines1)).templates
            { ns with ssl := true, certIssueStatus := "valid" } = .ok lines2 := hr2
        exact generateConfig_eq_ok _ _ _ hr2c
      have hget2 : getSite
          (saveSite (updateStatus (saveSite st ns) ns.id "provisioning" "issuing certificate")
            { ns with ssl := true, certIssueStatus := "valid" }) ns.id
          = some { ns with ssl := true, certIssueStatus := "valid" } :=
        getSite_saveSite _ _
      cases a2 with
      | false =>
        have hrun : provisionSite ⟨true, true, false⟩ ns fs (saveSite st ns)
            = (stagedFS (applyConfig ns.id (ns.id ++ ".conf") (stagedFS fs ns.id lines1))
                 ns.id lines2,
               updateStatus
                 (saveSite
                   (updateStatus (saveSite st ns) ns.id "provisioning" "issuing certificate")
                   { ns with ssl := true, certIssueStatus := "valid" })
                 ns.id "error" "ssl apply failed",
               [Ev.validate (configBytes lines1), Ev.apply (configBytes lines1),
                Ev.issue ns.domain]) := by
          simp [provisionSite, hsssl, hgen1, validateConfig, stagedFS_staging, lookup_setAssoc,
            hsite2, hgen2]
        rw [hrun]
        have hget3 := getSite_updateStatus_self _ _ ns.id "error" "ssl apply failed" hget2 rfl
        refine ⟨by simp, by simp, ?_⟩
        intro _
        refine ⟨_, hget3, rfl, rfl, ?_, ?_⟩
        · intro e' he'
          exact Except.noConfusion he'
        · intro l2 hl2
          cases Except.ok.inj hl2
          exact ⟨by simp, by intro hcon; cases hcon⟩
      | true =>
        have hrun : provisionSite ⟨true, true, true⟩ ns fs (saveSite st ns)
            = (applyConfig ns.id (ns.id ++ ".conf")
                 (stagedFS (applyConfig ns.id (ns.id ++ ".conf") (stagedFS fs ns.id lines1))
                   ns.id lines2),
               updateStatus
                 (saveSite
                   (updateStatus (saveSite st ns) ns.id "provisioning" "issuing certificate")
                   { ns with ssl := true, certIssueStatus := "valid" })
                 ns.id "active" "",
               [Ev.validate (configBytes lines1), Ev.apply (configBytes lines1),
                Ev.issue ns.domain, Ev.apply (configBytes lines2)]) := by
          simp [provisionSite, hsssl, hgen1, validateConfig, stagedFS_staging, lookup_setAssoc,
            hsite2, hgen2]
        rw [hrun]
        have hget3 := getSite_updateStatus_self _ _ ns.id "active" "" hget2 rfl
        refine ⟨by simp, by simp, ?_⟩
        intro _
        refine ⟨_, hget3, rfl, rfl, ?_, ?_⟩
        · intro e' he'
          exact Except.noConfusion he'
        · intro l2 hl2
          cases Except.ok.inj hl2
          refine ⟨by simp, ?_⟩
          intro _
          simp [applyConfig, stagedFS, lookup_setAssoc]

/-- C2: for a site created with `ssl=true` (and a first-phase render that
succeeds, with the first apply succeeding), the worker first validates and
applies the configuration rendered with ssl forced off and only then invokes
certificate issuance; on issuance failure the record ends `cert-failed` with
its stored ssl flag still true while the live config remains the HTTP-only
bytes; on success the record is persisted with ssl=true and
`cert_issue_status=valid`, re-rendered and re-applied, ending `active` (or
`error` if the re-render or re-apply fails, the live config then being the
re-rendered SSL bytes exactly when the re-apply succeeded). -/
theorem provision_two_phase_ssl (env : Env) (site0 : Site) (fs : FS) (st : SiteStore)
    (lines1 : List String)
    (hssl : site0.ssl = true)
    (happly1 : env.apply1Ok = true)
    (hrender : renderSite fs.templates { normalizeSite site0 with ssl := false }
      = .ok lines1) :
    (createSite env site0 fs st).2.2.take 3 =
      [Ev.validate (configBytes lines1), Ev.apply (configBytes lines1),
       Ev.issue (normalizeSite site0).domain]
    ∧ (env.issueOk = false →
        (∃ r, getSite (createSite env site0 fs st).2.1 (normalizeSite site0).id = some r
            ∧ r.status = "cert-failed" ∧ r.ssl = true)
        ∧ (createSite env site0 fs st).1.sites.lookup ((normalizeSite site0).id ++ ".conf")
            = some (configBytes lines1))
    ∧ (env.issueOk = true →
        ∃ r, getSite (createSite env site0 fs st).2.1 (normalizeSite site0).id = some r
          ∧ r.ssl = true ∧ r.certIssueStatus = "valid"
          ∧ (∀ e, renderSite fs.templates
                { normalizeSite site0 with ssl := true, certIssueStatus := "valid" }
                = .error e → r.status = "error")
          ∧ (∀ lines2, renderSite fs.templates
                { normalizeSite site0 with ssl := true, certIssueStatus := "valid" }
                = .ok lines2 →
              r.status = (if env.apply2Ok then "active" else "error")
              ∧ (env.apply2Ok = true →
                  (createSite env site0 fs st).1.sites.lookup
                    ((normalizeSite site0).id ++ ".conf") = some (configBytes lines2)))) := by
  have h1 : (normalizeSite site0).ssl = true := by rw [normalizeSite_ssl]; exact hssl
  exact provisionSite_two_phase_ssl_aux env (normalizeSite site0) fs st lines1 h1
    happly1 hrender

/-- The HTTP-only document of the ssl-off first pass on the demo site. -/
def demoHttpLines : List String :=
  httpServerBlock { normalizeSite demoSite with ssl := false } []
    ++ sslServerBlock { normalizeSite demoSite with ssl := false } []

/-- C2 witness: on the concrete all-success run, the first three events are
validate and apply of the ssl-off bytes, then issuance for the domain. -/
theorem provision_two_phase_ssl_witness :
    (createSite demoEnv demoSite demoFS []).2.2.take 3 =
      [Ev.validate (configBytes demoHttpLines), Ev.apply (configBytes demoHttpLines),
       Ev.issue (normalizeSite demoSite).domain] :=
  (provision_two_phase_ssl demoEnv demoSite demoFS [] demoHttpLines rfl rfl rfl).1

/-! ## Stream reconciliation lemmas -/

theorem getStream_save (st : StreamStore) (s : StreamRec) (id : String) :
    getStream (saveStream st s) id = if id = s.id then some s else getStream st id := by
  simp [getStream, saveStream, lookup_setAssoc]

theorem markActive_lookup (st : StreamStore) (b : StreamRec)
    (hb : getStream st b.id = some b) (id : String) :
    getStream (markActive st b) id
      = if id = b.id then some (if b.status = "active" then b
          else { b with status := "active", errorMessage := "" })
        else getStream st id := by
  by_cases hs : b.status = "active"
  · have hma : markActive st b = st := by simp [markActive, hs]
    rw [hma]
    by_cases hid : id = b.id
    · rw [if_pos hid, if_pos hs, hid, hb]
    · rw [if_neg hid]
  · have hb' : List.lookup b.id st = some b := hb
    have hma : markActive st b
        = saveStream st { b with status := "active", errorMessage := "" } := by
      simp [markActive, updateStreamStatus, hs, getStream, hb']
    rw [hma, getStream_save]
    by_cases hid : id = b.id
    · simp [hid, hs]
    · simp [hid]

theorem foldMark_not_mem (L : List StreamRec) :
    ∀ (st : StreamStore), (∀ a ∈ L, getStream st a.id = some a) →
      (L.map (fun a => a.id)).Nodup →
      ∀ id, (∀ a ∈ L, a.id ≠ id) →
        getStream (L.foldl markActive st) id = getStream st id := by
  induction L with
  | nil =>
    intro st _ _ id _
    rfl
  | cons b L ih =>
    intro st hall hnd id hne
    have hb := hall b (List.mem_cons_self b L)
    have hbid : b.id ∉ L.map (fun a => a.id) := (List.nodup_cons.mp hnd).1
    have hst1 : ∀ a ∈ L, getStream (markActive st b) a.id = some a := by
      intro a ha
      rw [markActive_lookup st b hb a.id,
        if_neg (fun he => hbid (by rw [← he]; exact List.mem_map.mpr ⟨a, ha, rfl⟩))]
      exact hall a (List.mem_cons_of_mem b ha)
    rw [List.foldl_cons, ih (markActive st b) hst1 (List.nodup_cons.mp hnd).2 id
        (fun a ha => hne a (List.mem_cons_of_mem b ha)),
      markActive_lookup st b hb id,
      if_neg (fun he => hne b (List.mem_cons_self b L) he.symm)]

theorem foldMark_mem (L : List StreamRec) :
    ∀ (st : StreamStore), (∀ a ∈ L, getStream st a.id = some a) →
      (L.map (fun a => a.id)).Nodup →
      ∀ a ∈ L,
        getStream (L.foldl markActive st) a.id
          = some (if a.status = "active" then a
              else { a with status := "active", errorMessage := "" }) := by
  induction L with
  | nil =>
    intro st _ _ a ha
    simp at ha
  | cons b L ih =>
    intro st hall hnd a ha
    have hb := hall b (List.mem_cons_self b L)
    have hbid : b.id ∉ L.map (fun x => x.id) := (List.nodup_cons.mp hnd).1
    have hst1 : ∀ c ∈ L, getStream (markActive st b) c.id = some c := by
      intro c hc
      rw [markActive_lookup st b hb c.id,
        if_neg (fun he => hbid (by rw [← he]; exact List.mem_map.mpr ⟨c, hc, rfl⟩))]
      exact hall c (List.mem_cons_of_mem b hc)
    rcases List.mem_cons.mp ha with rfl | haL
    · rw [List.foldl_cons,
        foldMark_not_mem L (markActive st a) hst1 (List.nodup_cons.mp hnd).2 a.id
          (fun c hc he => hbid (by rw [← he]; exact List.mem_map.mpr ⟨c, hc, rfl⟩)),
        markActive_lookup st a hb a.id, if_pos rfl]
    · rw [List.foldl_cons]
      exact ih (markActive st b) hst1 (List.nodup_cons.mp hnd).2 a haL

/-- C9: stream reconciliation for a port is all-or-nothing on record status:
a failed rebuild leaves every record exactly as it was; a successful rebuild
transitions every record on that port that was not already active to `active`
with an empty error message, and touches no other record. -/
theorem reconcileStreams_all_or_nothing (rebuildOk : Bool) (st : StreamStore) (port : Nat)
    (sfs : StreamFS)
    (hwf : ∀ p ∈ st, (p.2).id = p.1) (hnd : (st.map Prod.fst).Nodup) :
    (rebuildOk = false → (reconcileStreams rebuildOk st port sfs).1 = st)
    ∧ (rebuildOk = true → ∀ id s, getStream st id = some s →
        getStream (reconcileStreams rebuildOk st port sfs).1 id =
          some (if s.listenPort = port ∧ s.status ≠ "active"
                then { s with status := "active", errorMessage := "" } else s)) := by
  constructor
  · rintro rfl
    rfl
  · rintro rfl
    intro id s hs
    have hfst : (reconcileStreams true st port sfs).1
        = ((listStreams st).filter (fun s => s.listenPort == port)).foldl markActive st := rfl
    rw [hfst]
    have hmemst : (id, s) ∈ st := lookup_mem st id s hs
    have hsid : s.id = id := hwf (id, s) hmemst
    have hvals : ∀ a ∈ (listStreams st).filter (fun s => s.listenPort == port),
        getStream st a.id = some a := by
      intro a ha
      have ha' : a ∈ listStreams st := (List.mem_filter.mp ha).1
      obtain ⟨p, hp, hpa⟩ := List.mem_map.mp ha'
      have hpid : a.id = p.1 := by rw [← hpa]; exact hwf p hp
      show List.lookup a.id st = some a
      rw [hpid]
      apply mem_lookup_of_nodup st hnd
      have : (p.1, a) = p := by
        rw [← hpa]
      rw [this]
      exact hp
    have hndL : (((listStreams st).filter (fun s => s.listenPort == port)).map
        (fun a => a.id)).Nodup := by
      have hsub := (List.filter_sublist (l := listStreams st)
        (p := fun s => s.listenPort == port)).map (fun a => a.id)
      apply List.Nodup.sublist hsub
      have hmap : (listStreams st).map (fun a => a.id) = st.map Prod.fst := by
        rw [listStreams, List.map_map]
        exact List.map_congr_left (fun p hp => hwf p hp)
      rw [hmap]
      exact hnd
    by_cases hport : s.listenPort = port
    · have hsL : s ∈ (listStreams st).filter (fun s => s.listenPort == port) := by
        apply List.mem_filter.mpr
        refine ⟨List.mem_map.mpr ⟨(id, s), hmemst, rfl⟩, ?_⟩
        simp [hport]
      have hfold := foldMark_mem _ st hvals hndL s hsL
      rw [hsid] at hfold
      rw [hfold]
      by_cases hact : s.status = "active"
      · simp [hact, hport]
      · simp [hact, hport]
        exact hsid.symm
    · have hne : ∀ a ∈ (listStreams st).filter (fun s => s.listenPort == port),
          a.id ≠ id := by
        intro a ha he
        have hsome := hvals a ha
        rw [he, hs] at hsome
        cases Option.some.inj hsome
        have := (List.mem_filter.mp ha).2
        simp at this
        exact hport this
      rw [foldMark_not_mem _ st hvals hndL id hne, hs]
      simp [hport]

/-- A pending stream record on port 9000. -/
def demoS1 : StreamRec :=
  { id := "s1", listenPort := 9000, upstream := "10.0.0.5:5432", protocol := "tcp",
    domain := "db.test", status := "provisioning", errorMessage := "" }

/-- An already-active record on another port. -/
def demoS2 : StreamRec :=
  { id := "s2", listenPort := 9001, upstream := "10.0.0.6:5432", protocol := "tcp",
    domain := "", status := "active", errorMessage := "" }

/-- A two-record stream store. -/
def demoStreamStore : StreamStore :=
  [("s1", demoS1), ("s2", demoS2)]

/-- An empty stream filesystem. -/
def demoStreamFS : StreamFS :=
  { files := [], reloads := 0 }

/-- C9 witness: a successful rebuild of port 9000 activates the pending
record of that port in the concrete store. -/
theorem reconcileStreams_all_or_nothing_witness :
    getStream (reconcileStreams true demoStreamStore 9000 demoStreamFS).1 "s1"
      = some (if demoS1.listenPort = 9000 ∧ demoS1.status ≠ "active"
              then { demoS1 with status := "active", errorMessage := "" } else demoS1) :=
  (reconcileStreams_all_or_nothing true demoStreamStore 9000 demoStreamFS
      (by decide) (by decide)).2 rfl "s1" demoS1 (by decide)
